import Mathlib

/-!
Verification of the `webusb` crate (littledivy/webusb) against its
natural-language specification.

Shallow embedding conventions:
* Rust `u8`/`u16`/`usize` values are `Nat`; wrapping arithmetic is made
  explicit with `% 256` (release-mode overflow semantics).  In particular
  `u8::wrapping_shl(8)` shifts by `8 % 8 = 0`, i.e. it is the identity.
* A Rust panic (out-of-bounds index, `unreachable!`, `unwrap` on `Err`)
  is the `PResult.crashed` outcome; normal returns are `PResult.ok`.
* Fallible operations return `Except Error α` inside `PResult`.
* Backend (rusb / libusb) calls are modelled by an oracle record
  `Backend` holding the response of each call the core can make.
* Rust `String`s that the core builds from raw descriptor bytes are
  modelled as their UTF-8 byte sequences (`List Nat`).
-/

/-- Outcome of running a piece of Rust code that may panic. -/
inductive PResult (α : Type) where
  | crashed : PResult α
  | ok : α → PResult α
deriving DecidableEq, Repr

instance : Monad PResult where
  pure := .ok
  bind m f := match m with
    | .crashed => .crashed
    | .ok a => f a

instance exceptDecidableEq {ε α : Type} [DecidableEq ε] [DecidableEq α] :
    DecidableEq (Except ε α)
  | .error a, .error b =>
    if h : a = b then .isTrue (by rw [h])
    else .isFalse (fun c => h (Except.error.inj c))
  | .error _, .ok _ => .isFalse (fun c => Except.noConfusion c)
  | .ok _, .error _ => .isFalse (fun c => Except.noConfusion c)
  | .ok a, .ok b =>
    if h : a = b then .isTrue (by rw [h])
    else .isFalse (fun c => h (Except.ok.inj c))

/-- Panicking slice index `l[i]` (src/descriptors.rs uses raw indexing). -/
def idxP (l : List Nat) (i : Nat) : PResult Nat :=
  match l.get? i with
  | some v => .ok v
  | none => .crashed

/-- Panicking slice `&l[i..]`. -/
def sliceFromP (l : List Nat) (i : Nat) : PResult (List Nat) :=
  if i ≤ l.length then .ok (l.drop i) else .crashed

/-- Panicking slice `&l[a..b]`. -/
def sliceRangeP (l : List Nat) (a b : Nat) : PResult (List Nat) :=
  if a ≤ b ∧ b ≤ l.length then .ok ((l.drop a).take (b - a)) else .crashed

/-! Constants from src/constants.rs. -/

def DEVICE_CAPABILITY_DESCRIPTOR_TYPE : Nat := 0x10
def PLATFORM_DEV_CAPABILITY_TYPE : Nat := 0x05
/-- Little-endian encoding of the WebUSB platform capability UUID. -/
def WEB_USB_CAPABILITY_UUID : List Nat :=
  [0x38, 0xB6, 0x08, 0x34, 0xA9, 0x09, 0xA0, 0x47, 0x8B, 0xFD, 0xA0, 0x76,
   0x88, 0x15, 0xB6, 0x65]
def BOS_DESCRIPTOR_TYPE : Nat := 0x0F
def DESCRIPTOR_TYPE : Nat := 0x03
def DESCRIPTOR_MIN_LENGTH : Nat := 3

/-- The `for i in 0..num_device_caps` loop of `parse_bos`
(src/descriptors.rs lines 33-75).  `bytes` is the current slice, `length`
the `length` variable from the previous iteration (0 initially), `i` the
loop counter and `fuel` the remaining iteration count.  Each loop body:
re-slices `bytes = &bytes[length..]`, checks `i == end`, reads the
capability header with panicking indexing, and either returns, aborts with
`None`, or continues. -/
def parse_bos_loop (endv : Nat) (bytes : List Nat) (length : Nat) (i : Nat) :
    Nat → PResult (Option (Nat × Nat))
  | 0 => .ok none
  | fuel + 1 => do
    let bytes ← sliceFromP bytes length
    if i = endv then pure none
    else do
      let length ← idxP bytes 0
      if length < 3 then pure none
      else if bytes.length < length then pure none
      else do
        let b1 ← idxP bytes 1
        if b1 ≠ DEVICE_CAPABILITY_DESCRIPTOR_TYPE then pure none
        else do
          let b2 ← idxP bytes 2
          if b2 ≠ PLATFORM_DEV_CAPABILITY_TYPE then
            parse_bos_loop endv bytes length (i + 1) fuel
          else if length < 20 then pure none
          else do
            let uuid ← sliceRangeP bytes 4 20
            if uuid ≠ WEB_USB_CAPABILITY_UUID then
              parse_bos_loop endv bytes length (i + 1) fuel
            else if length < 22 then pure none
            else do
              let b20 ← idxP bytes 20
              let b21 ← idxP bytes 21
              let version := b20 + b21 * 256
              if version < 0x0100 then
                parse_bos_loop endv bytes length (i + 1) fuel
              else if length ≠ 24 then pure none
              else do
                let vendor_code ← idxP bytes 22
                let landing_page_id ← idxP bytes 23
                pure (some (vendor_code, landing_page_id))

/-- `parse_bos` from src/descriptors.rs.  `total_length` is the u8 sum
`bytes[2] + bytes[3].wrapping_shl(8)`; shifting a u8 left by 8 is a no-op
under `wrapping_shl`, so the value is `(bytes[2] + bytes[3]) % 256`.
`end` is the u8 sum `bytes[0] + total_length`, again wrapping. -/
def parse_bos (bytes : List Nat) : PResult (Option (Nat × Nat)) :=
  if bytes.length < 5 then .ok none
  else do
    let b2 ← idxP bytes 2
    let b3 ← idxP bytes 3
    let total_length := (b2 + b3) % 256
    let b0 ← idxP bytes 0
    if b0 ≠ 5 then pure none
    else do
      let b1 ← idxP bytes 1
      if b1 ≠ BOS_DESCRIPTOR_TYPE then pure none
      else if 5 > total_length ∨ total_length > bytes.length then pure none
      else do
        let num_device_caps ← idxP bytes 4
        let endv := (b0 + total_length) % 256
        let rest ← sliceFromP bytes 5
        parse_bos_loop endv rest 0 0 num_device_caps

/-- UTF-8 replacement character U+FFFD, as its UTF-8 bytes. -/
def replacementBytes : List Nat := [0xEF, 0xBF, 0xBD]

/-- A UTF-8 continuation byte, `0x80..=0xBF`. -/
def utf8Cont (b : Nat) : Bool := 0x80 ≤ b && b ≤ 0xBF

/-- Admissible second byte of a 3-byte UTF-8 sequence headed by `b0`. -/
def utf8Second3 (b0 b1 : Nat) : Bool :=
  if b0 = 0xE0 then 0xA0 ≤ b1 && b1 ≤ 0xBF
  else if b0 = 0xED then 0x80 ≤ b1 && b1 ≤ 0x9F
  else utf8Cont b1

/-- Admissible second byte of a 4-byte UTF-8 sequence headed by `b0`. -/
def utf8Second4 (b0 b1 : Nat) : Bool :=
  if b0 = 0xF0 then 0x90 ≤ b1 && b1 ≤ 0xBF
  else if b0 = 0xF4 then 0x80 ≤ b1 && b1 ≤ 0x8F
  else utf8Cont b1

/-- Fuelled worker for `from_utf8_lossy`: each invalid maximal subpart is
replaced by U+FFFD, per the substitution-of-maximal-subparts policy of
Rust's `String::from_utf8_lossy`.  Every recursive call consumes at least
one input byte, so fuel `= length` suffices. -/
def utf8LossyFuel : Nat → List Nat → List Nat
  | 0, _ => []
  | _, [] => []
  | fuel + 1, b0 :: rest =>
    if b0 < 0x80 then b0 :: utf8LossyFuel fuel rest
    else if 0xC2 ≤ b0 && b0 ≤ 0xDF then
      match rest with
      | [] => replacementBytes
      | b1 :: rest1 =>
        if utf8Cont b1 then b0 :: b1 :: utf8LossyFuel fuel rest1
        else replacementBytes ++ utf8LossyFuel fuel (b1 :: rest1)
    else if 0xE0 ≤ b0 && b0 ≤ 0xEF then
      match rest with
      | [] => replacementBytes
      | b1 :: rest1 =>
        if utf8Second3 b0 b1 then
          match rest1 with
          | [] => replacementBytes
          | b2 :: rest2 =>
            if utf8Cont b2 then b0 :: b1 :: b2 :: utf8LossyFuel fuel rest2
            else replacementBytes ++ utf8LossyFuel fuel (b2 :: rest2)
        else replacementBytes ++ utf8LossyFuel fuel (b1 :: rest1)
    else if 0xF0 ≤ b0 && b0 ≤ 0xF4 then
      match rest with
      | [] => replacementBytes
      | b1 :: rest1 =>
        if utf8Second4 b0 b1 then
          match rest1 with
          | [] => replacementBytes
          | b2 :: rest2 =>
            if utf8Cont b2 then
              match rest2 with
              | [] => replacementBytes
              | b3 :: rest3 =>
                if utf8Cont b3 then
                  b0 :: b1 :: b2 :: b3 :: utf8LossyFuel fuel rest3
                else replacementBytes ++ utf8LossyFuel fuel (b3 :: rest3)
            else replacementBytes ++ utf8LossyFuel fuel (b2 :: rest2)
        else replacementBytes ++ utf8LossyFuel fuel (b1 :: rest1)
    else replacementBytes ++ utf8LossyFuel fuel rest

/-- `String::from_utf8_lossy`, at the level of UTF-8 byte sequences
(valid input is returned unchanged; invalid subparts become U+FFFD). -/
def from_utf8_lossy (l : List Nat) : List Nat := utf8LossyFuel l.length l

/-- ASCII bytes of a Lean string literal (used for Rust string literals;
all literals in the sources are ASCII). -/
def asciiBytes (s : String) : List Nat := s.toList.map Char.toNat

/-- `parse_webusb_url` from src/descriptors.rs; the produced Rust `String`
is modelled as its UTF-8 byte sequence. -/
def parse_webusb_url (bytes : List Nat) : Option (List Nat) :=
  if bytes.length < DESCRIPTOR_MIN_LENGTH then none
  else
    let length := bytes.getD 0 0
    if length < DESCRIPTOR_MIN_LENGTH then none
    else if bytes.length < length then none
    else if bytes.getD 1 0 ≠ DESCRIPTOR_TYPE then none
    else if bytes.getD 2 0 = 0 then
      some (asciiBytes "http://" ++ from_utf8_lossy ((bytes.take length).drop 3))
    else if bytes.getD 2 0 = 1 then
      some (asciiBytes "https://" ++ from_utf8_lossy ((bytes.take length).drop 3))
    else none

/-- The literal S1 BOS byte sequence from the spec (and the crate's
`test_parse_bos`). -/
def s1Bytes : List Nat :=
  [0x05, 0x0F, 0x4C, 0x00, 0x03,
   0x14, 0x10, 0x04, 0x00, 0x2A, 0xF9, 0xF6, 0xC2, 0x98, 0x10, 0x2B, 0x49,
   0x8E, 0x64, 0xFF, 0x01, 0x0C, 0x7F, 0x94, 0xE1,
   0x18, 0x10, 0x05, 0x00, 0x38, 0xB6, 0x08, 0x34, 0xA9, 0x09, 0xA0, 0x47,
   0x8B, 0xFD, 0xA0, 0x76, 0x88, 0x15, 0xB6, 0x65, 0x00, 0x01, 0x42, 0x01,
   0x1C, 0x10, 0x05, 0x00, 0xDF, 0x60, 0xDD, 0xD8, 0x89, 0x45, 0xC7, 0x4C,
   0x9C, 0xD2, 0x65, 0x9D, 0x9E, 0x64, 0x8A, 0x9F, 0x00, 0x00, 0x03, 0x06,
   0x00, 0x00, 0x01, 0x00]

/-- The literal S2 URL descriptor from the spec (and the crate's
`test_parse_url_descriptor`). -/
def s2Bytes : List Nat :=
  [0x19, 0x03, 0x01] ++ asciiBytes "example.com/index.html"

/-! Data model from src/lib.rs. -/

/-- `Direction` from src/lib.rs. -/
inductive Direction where
  | In
  | Out
deriving DecidableEq, Repr

/-- `UsbEndpointType` from src/lib.rs. -/
inductive UsbEndpointType where
  | Bulk
  | Interrupt
  | Isochronous
  | Control
deriving DecidableEq, Repr

/-- `UsbEndpoint` from src/lib.rs (`r#type` is rendered `ttype`). -/
structure UsbEndpoint where
  endpoint_number : Nat
  direction : Direction
  ttype : UsbEndpointType
  packet_size : Nat
deriving DecidableEq, Repr

/-- `UsbAlternateInterface` from src/lib.rs. -/
structure UsbAlternateInterface where
  alternate_setting : Nat
  interface_class : Nat
  interface_subclass : Nat
  interface_protocol : Nat
  interface_name : Option (List Nat)
  endpoints : List UsbEndpoint
deriving DecidableEq, Repr

/-- `UsbInterface` from src/lib.rs. -/
structure UsbInterface where
  interface_number : Nat
  alternate : UsbAlternateInterface
  alternates : List UsbAlternateInterface
  claimed : Bool
deriving DecidableEq, Repr

/-- `UsbConfiguration` from src/lib.rs. -/
structure UsbConfiguration where
  configuration_name : Option (List Nat)
  configuration_value : Nat
  interfaces : List UsbInterface
deriving DecidableEq, Repr

/-- `UsbDevice` from src/lib.rs (libusb backend).  The opaque
`rusb::DeviceHandle` is modelled by presence (`Option Unit`); the
`rusb::Device` field lives in the `Backend` oracle. -/
structure UsbDevice where
  configurations : List UsbConfiguration
  configuration : Option UsbConfiguration
  device_class : Nat
  device_subclass : Nat
  device_protocol : Nat
  device_version_major : Nat
  device_version_minor : Nat
  device_version_subminor : Nat
  manufacturer_name : Option (List Nat)
  product_id : Nat
  product_name : Option (List Nat)
  serial_number : Option (List Nat)
  usb_version_major : Nat
  usb_version_minor : Nat
  usb_version_subminor : Nat
  vendor_id : Nat
  opened : Bool
  url : Option (List Nat)
  device_handle : Option Unit
deriving DecidableEq, Repr

/-- `rusb::Error` (only the variants the core distinguishes are named;
everything else is `other`). -/
inductive RusbError where
  | access
  | busy
  | noDevice
  | ioErr
  | other (code : Nat)
deriving DecidableEq, Repr

/-- `Error` from src/lib.rs. -/
inductive Error where
  | usb (e : RusbError)
  | notFound
  | invalidState
  | invalidAccess
deriving DecidableEq, Repr

/-- `UsbRequestType` from src/lib.rs. -/
inductive UsbRequestType where
  | Standard
  | Class
  | Vendor
deriving DecidableEq, Repr

/-- `UsbRecipient` from src/lib.rs. -/
inductive UsbRecipient where
  | Device
  | Interface
  | Endpoint
  | Other
deriving DecidableEq, Repr

/-- `UsbControlTransferParameters` from src/lib.rs. -/
structure UsbControlTransferParameters where
  request_type : UsbRequestType
  recipient : UsbRecipient
  request : Nat
  value : Nat
  index : Nat
deriving DecidableEq, Repr

/-- Oracle of backend (rusb) responses: one field per backend call the
core can issue.  `config_descriptor` yields an opaque descriptor token
(`Nat`); `configuration_from` is `UsbConfiguration::from(descriptor,
handle)`, which reads string descriptors through the handle and may fail. -/
structure Backend where
  open_device : Except RusbError Unit
  config_descriptor : Nat → Except RusbError Nat
  configuration_from : Nat → Except Error UsbConfiguration
  set_active_configuration : Nat → Except RusbError Unit
  claim_interface : Nat → Except RusbError Unit
  release_interface : Nat → Except RusbError Unit
  set_alternate_setting : Nat → Nat → Except RusbError Unit
  read_control : Except RusbError Nat
  write_control : Except RusbError Nat
  read_bulk : Nat → Except RusbError Nat
  read_interrupt : Nat → Except RusbError Nat
  write_bulk : Nat → Except RusbError Nat
  write_interrupt : Nat → Except RusbError Nat
  clear_halt : Nat → Except RusbError Unit
  reset_device : Except RusbError Unit

def EP_DIR_IN : Nat := 0x80
def EP_DIR_OUT : Nat := 0x0

/-- `validate_control_setup` from src/lib.rs (lines 401-463).  Note the
endpoint-number mask: the source computes `setup.index as u8 & (1 << 4)`,
i.e. `(index % 256) &&& 0x10`. -/
def UsbDevice.validate_control_setup (d : UsbDevice)
    (setup : UsbControlTransferParameters) : Except Error Unit :=
  match d.configuration with
  | none => .ok ()
  | some configuration =>
    match setup.recipient with
    | .Interface =>
      let interface_number := setup.index % 256
      match configuration.interfaces.find?
          (fun itf => itf.interface_number == interface_number) with
      | none => .error .notFound
      | some interface =>
        if !interface.claimed then .error .invalidState else .ok ()
    | .Endpoint =>
      let endpoint_number := (setup.index % 256) &&& (1 <<< 4)
      let direction := if (setup.index >>> 8) % 2 = 1
        then Direction.In else Direction.Out
      match configuration.interfaces.find? (fun itf =>
          itf.alternates.any (fun alt =>
            alt.endpoints.any (fun endpoint =>
              endpoint.endpoint_number == endpoint_number &&
                endpoint.direction == direction))) with
      | none => .error .notFound
      | some _ => .ok ()
    | _ => .ok ()

/-- Modelled from the spec: `validate_control_setup` as §4.E words it for
`recipient == Endpoint` — endpoint number is the low nibble
`setup.index & 0x0F` (design note (a) declares this mask authoritative).
Used only to compare against the source's implementation. -/
def validate_control_setup_spec (d : UsbDevice)
    (setup : UsbControlTransferParameters) : Except Error Unit :=
  match d.configuration with
  | none => .ok ()
  | some configuration =>
    match setup.recipient with
    | .Interface =>
      let interface_number := setup.index % 256
      match configuration.interfaces.find?
          (fun itf => itf.interface_number == interface_number) with
      | none => .error .notFound
      | some interface =>
        if !interface.claimed then .error .invalidState else .ok ()
    | .Endpoint =>
      let endpoint_number := (setup.index % 256) &&& 0x0F
      let direction := if (setup.index >>> 8) % 2 = 1
        then Direction.In else Direction.Out
      match configuration.interfaces.find? (fun itf =>
          itf.alternates.any (fun alt =>
            alt.endpoints.any (fun endpoint =>
              endpoint.endpoint_number == endpoint_number &&
                endpoint.direction == direction))) with
      | none => .error .notFound
      | some _ => .ok ()
    | _ => .ok ()

/-- `open()` from src/lib.rs (`open` is a Lean keyword). -/
def UsbDevice.openDevice (b : Backend) (d : UsbDevice) :
    PResult (Except Error Unit × UsbDevice) :=
  if d.opened then .ok (.ok (), d)
  else match b.open_device with
    | .error e => .ok (.error (.usb e), d)
    | .ok () => .ok (.ok (), { d with device_handle := some (), opened := true })

/-- `close()` from src/lib.rs.  Dropping the handle releases it in libusb;
the model's `Interface.claimed` flags are not touched by the source. -/
def UsbDevice.close (d : UsbDevice) :
    PResult (Except Error Unit × UsbDevice) :=
  if !d.opened then .ok (.ok (), d)
  else match d.device_handle with
    | none => .crashed
    | some _ => .ok (.ok (), { d with device_handle := none, opened := false })

/-- `select_configuration()` from src/lib.rs (libusb branch). -/
def UsbDevice.select_configuration (b : Backend) (configuration_value : Nat)
    (d : UsbDevice) : PResult (Except Error Unit × UsbDevice) :=
  match d.configurations.findIdx?
      (fun c => c.configuration_value == configuration_value) with
  | none => .ok (.error .notFound, d)
  | some config_idx =>
    match b.config_descriptor config_idx with
    | .error e => .ok (.error (.usb e), d)
    | .ok configuration =>
      if !d.opened then .ok (.error .invalidState, d)
      else match d.device_handle with
        | none => .crashed
        | some _ =>
          match b.set_active_configuration configuration_value with
          | .error e => .ok (.error (.usb e), d)
          | .ok () =>
            match b.configuration_from configuration with
            | .error e => .ok (.error e, d)
            | .ok cfg => .ok (.ok (), { d with configuration := some cfg })

/-- The `iter_mut().find(..)` mutation in claim/release: set the `claimed`
flag of the first interface with the given number. -/
def setClaimedFirst : List UsbInterface → Nat → Bool → List UsbInterface
  | [], _, _ => []
  | i :: rest, n, v =>
    if i.interface_number == n then { i with claimed := v } :: rest
    else i :: setClaimedFirst rest n v

/-- Replace the interfaces of the device's current configuration. -/
def UsbDevice.withClaimed (d : UsbDevice) (n : Nat) (v : Bool) : UsbDevice :=
  { d with configuration := (d.configuration.map
      (fun cfg => { cfg with interfaces := setClaimedFirst cfg.interfaces n v })) }

/-- `claim_interface()` from src/lib.rs (libusb branch). -/
def UsbDevice.claim_interface (b : Backend) (interface_number : Nat)
    (d : UsbDevice) : PResult (Except Error Unit × UsbDevice) :=
  match d.configuration with
  | none => .ok (.error .notFound, d)
  | some active_configuration =>
    match active_configuration.interfaces.find?
        (fun i => i.interface_number == interface_number) with
    | none => .ok (.error .notFound, d)
    | some interface =>
      if !d.opened then .ok (.error .invalidState, d)
      else if interface.claimed then .ok (.ok (), d)
      else match d.device_handle with
        | none => .crashed
        | some _ =>
          match b.claim_interface interface.interface_number with
          | .error e => .ok (.error (.usb e), d)
          | .ok () => .ok (.ok (), d.withClaimed interface_number true)

/-- `release_interface()` from src/lib.rs (libusb branch). -/
def UsbDevice.release_interface (b : Backend) (interface_number : Nat)
    (d : UsbDevice) : PResult (Except Error Unit × UsbDevice) :=
  match d.configuration with
  | none => .ok (.error .notFound, d)
  | some active_configuration =>
    match active_configuration.interfaces.find?
        (fun i => i.interface_number == interface_number) with
    | none => .ok (.error .notFound, d)
    | some interface =>
      if !d.opened then .ok (.error .invalidState, d)
      else if !interface.claimed then .ok (.ok (), d)
      else match d.device_handle with
        | none => .crashed
        | some _ =>
          match b.release_interface interface.interface_number with
          | .error e => .ok (.error (.usb e), d)
          | .ok () => .ok (.ok (), d.withClaimed interface_number false)

/-- `select_alternate_interface()` from src/lib.rs (libusb branch); the
source does not mirror the new alternate into the model. -/
def UsbDevice.select_alternate_interface (b : Backend)
    (interface_number alternate_setting : Nat) (d : UsbDevice) :
    PResult (Except Error Unit × UsbDevice) :=
  match d.configuration with
  | none => .ok (.error .notFound, d)
  | some active_configuration =>
    match active_configuration.interfaces.find?
        (fun i => i.interface_number == interface_number) with
    | none => .ok (.error .notFound, d)
    | some interface =>
      if !d.opened || !interface.claimed then .ok (.error .invalidState, d)
      else match d.device_handle with
        | none => .crashed
        | some _ =>
          match b.set_alternate_setting interface.interface_number
              alternate_setting with
          | .error e => .ok (.error (.usb e), d)
          | .ok () => .ok (.ok (), d)

/-- `control_transfer_in()` from src/lib.rs (libusb branch).  The result
is `&buffer[0..bytes_transferred]` of a fresh zero buffer of `length`
bytes; slicing out of range is a panic. -/
def UsbDevice.control_transfer_in (b : Backend)
    (setup : UsbControlTransferParameters) (length : Nat) (d : UsbDevice) :
    PResult (Except Error (List Nat) × UsbDevice) :=
  if !d.opened then .ok (.error .invalidState, d)
  else match d.validate_control_setup setup with
    | .error e => .ok (.error e, d)
    | .ok () =>
      match d.device_handle with
      | none => .crashed
      | some _ =>
        match b.read_control with
        | .error e => .ok (.error (.usb e), d)
        | .ok bytes_transferred =>
          if bytes_transferred ≤ length then
            .ok (.ok (List.replicate bytes_transferred 0), d)
          else .crashed

/-- `control_transfer_out()` from src/lib.rs (libusb branch). -/
def UsbDevice.control_transfer_out (b : Backend)
    (setup : UsbControlTransferParameters) (data : List Nat) (d : UsbDevice) :
    PResult (Except Error Nat × UsbDevice) :=
  if !d.opened then .ok (.error .invalidState, d)
  else match d.validate_control_setup setup with
    | .error e => .ok (.error e, d)
    | .ok () =>
      match d.device_handle with
      | none => .crashed
      | some _ =>
        match b.write_control with
        | .error e => .ok (.error (.usb e), d)
        | .ok bytes_written => .ok (.ok bytes_written, d)

/-- The nested `find_map`/`find` endpoint lookup of `transfer_in` /
`transfer_out`. -/
def UsbConfiguration.findEndpoint (cfg : UsbConfiguration)
    (endpoint_number : Nat) (direction : Direction) : Option UsbEndpoint :=
  cfg.interfaces.findSome? (fun itf =>
    itf.alternates.findSome? (fun alt =>
      alt.endpoints.find? (fun endpoint =>
        endpoint.endpoint_number == endpoint_number &&
          endpoint.direction == direction)))

/-- `transfer_in()` from src/lib.rs (libusb branch).  The claim-check is
absent in the source (`FIXME: Check if interface is claimed`). -/
def UsbDevice.transfer_in (b : Backend) (endpoint_number length : Nat)
    (d : UsbDevice) : PResult (Except Error (List Nat) × UsbDevice) :=
  match d.configuration with
  | none => .ok (.error .notFound, d)
  | some cfg =>
    match cfg.findEndpoint endpoint_number Direction.In with
    | none => .ok (.error .notFound, d)
    | some endpoint =>
      match endpoint.ttype with
      | .Bulk | .Interrupt =>
        if !d.opened then .ok (.error .invalidState, d)
        else match d.device_handle with
          | none => .crashed
          | some _ =>
            let endpoint_addr := EP_DIR_IN ||| endpoint_number
            let r := match endpoint.ttype with
              | .Bulk => b.read_bulk endpoint_addr
              | _ => b.read_interrupt endpoint_addr
            match r with
            | .error e => .ok (.error (.usb e), d)
            | .ok bytes_transferred =>
              if bytes_transferred ≤ length then
                .ok (.ok (List.replicate bytes_transferred 0), d)
              else .crashed
      | _ => .ok (.error .invalidAccess, d)

/-- `transfer_out()` from src/lib.rs (libusb branch).  The claim-check is
absent in the source (`FIXME: Check if interface is claimed`). -/
def UsbDevice.transfer_out (b : Backend) (endpoint_number : Nat)
    (data : List Nat) (d : UsbDevice) :
    PResult (Except Error Nat × UsbDevice) :=
  match d.configuration with
  | none => .ok (.error .notFound, d)
  | some cfg =>
    match cfg.findEndpoint endpoint_number Direction.Out with
    | none => .ok (.error .notFound, d)
    | some endpoint =>
      match endpoint.ttype with
      | .Bulk | .Interrupt =>
        if !d.opened then .ok (.error .invalidState, d)
        else match d.device_handle with
          | none => .crashed
          | some _ =>
            let endpoint_addr := EP_DIR_OUT ||| endpoint_number
            let r := match endpoint.ttype with
              | .Bulk => b.write_bulk endpoint_addr
              | _ => b.write_interrupt endpoint_addr
            match r with
            | .error e => .ok (.error (.usb e), d)
            | .ok bytes_written => .ok (.ok bytes_written, d)
      | _ => .ok (.error .invalidAccess, d)

/-- `clear_halt()` from src/lib.rs (libusb branch). -/
def UsbDevice.clear_halt (b : Backend) (direction : Direction)
    (endpoint_number : Nat) (d : UsbDevice) :
    PResult (Except Error Unit × UsbDevice) :=
  match d.configuration with
  | none => .ok (.error .notFound, d)
  | some active_configuration =>
    match active_configuration.interfaces.find? (fun itf =>
        itf.alternates.any (fun alt =>
          alt.endpoints.any (fun endpoint =>
            endpoint.endpoint_number == endpoint_number &&
              endpoint.direction == direction))) with
    | none => .ok (.error .notFound, d)
    | some interface =>
      if !d.opened || !interface.claimed then .ok (.error .invalidState, d)
      else match d.device_handle with
        | none => .crashed
        | some _ =>
          let endpoint := match direction with
            | .In => endpoint_number ||| EP_DIR_IN
            | .Out => endpoint_number ||| EP_DIR_OUT
          match b.clear_halt endpoint with
          | .error e => .ok (.error (.usb e), d)
          | .ok () => .ok (.ok (), d)

/-- `reset()` from src/lib.rs (libusb branch). -/
def UsbDevice.reset (b : Backend) (d : UsbDevice) :
    PResult (Except Error Unit × UsbDevice) :=
  if !d.opened then .ok (.error .invalidState, d)
  else match d.device_handle with
    | none => .crashed
    | some _ =>
      match b.reset_device with
      | .error e => .ok (.error (.usb e), d)
      | .ok () => .ok (.ok (), d)

/-! Enumeration: `Context::devices` from src/lib.rs (lines 1323-1342). -/

/-- The part of `rusb::DeviceDescriptor` the pipeline reads. -/
structure DeviceDescriptor where
  class_code : Nat
deriving DecidableEq, Repr

/-- A raw `rusb::Device` as the enumeration pipeline sees it: the result
of reading its descriptor, and the result of `UsbDevice::try_from`. -/
structure RawDevice where
  device_descriptor : Except RusbError DeviceDescriptor
  try_from : Except Error UsbDevice

/-- The final `.map(|d| d.unwrap())` of the pipeline: panics on any
remaining `Err`. -/
def unwrapAll : List (Except Error UsbDevice) → PResult (List UsbDevice)
  | [] => .ok []
  | .ok d :: rest => do
    let ds ← unwrapAll rest
    pure (d :: ds)
  | .error _ :: _ => .crashed

/-- `Context::devices`: filter out hubs (class 9, and devices whose
descriptor read fails), build each record, drop `Usb(Access)` failures,
then `unwrap` whatever is left. -/
def Context.devices (devs : Except RusbError (List RawDevice)) :
    PResult (Except Error (List UsbDevice)) :=
  match devs with
  | .error e => .ok (.error (.usb e))
  | .ok ds =>
    let listed := ds.filter (fun d =>
      match d.device_descriptor with
      | .ok dd => dd.class_code != 9
      | .error _ => false)
    let built := listed.map (fun d => d.try_from)
    let kept := built.filter (fun r =>
      match r with
      | .ok _ => true
      | .error e => e != Error.usb RusbError.access)
    do
      let us ← unwrapAll kept
      pure (.ok us)

/-! Operation sequences over one device (for the `opened ⇔ handle`
invariant of §8). -/

/-- One public operation on a `UsbDevice`, with the backend responses it
will observe. -/
inductive Op where
  | openDevice (b : Backend)
  | close
  | select_configuration (b : Backend) (v : Nat)
  | claim_interface (b : Backend) (n : Nat)
  | release_interface (b : Backend) (n : Nat)
  | select_alternate_interface (b : Backend) (n a : Nat)
  | control_transfer_in (b : Backend) (setup : UsbControlTransferParameters)
      (length : Nat)
  | control_transfer_out (b : Backend) (setup : UsbControlTransferParameters)
      (data : List Nat)
  | transfer_in (b : Backend) (ep length : Nat)
  | transfer_out (b : Backend) (ep : Nat) (data : List Nat)
  | clear_halt (b : Backend) (dir : Direction) (ep : Nat)
  | reset (b : Backend)

/-- Run one operation, keeping only the device state (errors are returned
to the caller and leave the device in the paired state). -/
def applyOp (op : Op) (d : UsbDevice) : PResult UsbDevice :=
  match op with
  | .openDevice b => do let r ← d.openDevice b; pure r.2
  | .close => do let r ← d.close; pure r.2
  | .select_configuration b v => do
    let r ← d.select_configuration b v; pure r.2
  | .claim_interface b n => do let r ← d.claim_interface b n; pure r.2
  | .release_interface b n => do let r ← d.release_interface b n; pure r.2
  | .select_alternate_interface b n a => do
    let r ← d.select_alternate_interface b n a; pure r.2
  | .control_transfer_in b setup len => do
    let r ← d.control_transfer_in b setup len; pure r.2
  | .control_transfer_out b setup data => do
    let r ← d.control_transfer_out b setup data; pure r.2
  | .transfer_in b ep len => do let r ← d.transfer_in b ep len; pure r.2
  | .transfer_out b ep data => do let r ← d.transfer_out b ep data; pure r.2
  | .clear_halt b dir ep => do let r ← d.clear_halt b dir ep; pure r.2
  | .reset b => do let r ← d.reset b; pure r.2

/-- Run a sequence of operations. -/
def runOps : List Op → UsbDevice → PResult UsbDevice
  | [], d => .ok d
  | op :: ops, d => do
    let d' ← applyOp op d
    runOps ops d'

/-- The §8 invariant: `opened` iff the backend handle is present. -/
def devInv (d : UsbDevice) : Prop :=
  d.opened = true ↔ d.device_handle.isSome = true

/-! Concrete fixtures used by the witnesses and counterexamples. -/

/-- A device skeleton with the given configuration tree and open state. -/
def mkDevice (cfgs : List UsbConfiguration) (cfg : Option UsbConfiguration)
    (op : Bool) (h : Option Unit) : UsbDevice :=
  { configurations := cfgs
    configuration := cfg
    device_class := 0
    device_subclass := 0
    device_protocol := 0
    device_version_major := 0
    device_version_minor := 1
    device_version_subminor := 0
    manufacturer_name := none
    product_id := 0x8036
    product_name := none
    serial_number := none
    usb_version_major := 2
    usb_version_minor := 1
    usb_version_subminor := 0
    vendor_id := 0x2341
    opened := op
    url := none
    device_handle := h }

/-- Bulk OUT endpoint 4 (the Leonardo test device's write endpoint). -/
def epOut4 : UsbEndpoint :=
  { endpoint_number := 4, direction := .Out, ttype := .Bulk, packet_size := 64 }

/-- Bulk IN endpoint 5. -/
def epIn5 : UsbEndpoint :=
  { endpoint_number := 5, direction := .In, ttype := .Bulk, packet_size := 64 }

/-- Out endpoint 1 (used for the endpoint-mask counterexample). -/
def epOut1 : UsbEndpoint :=
  { endpoint_number := 1, direction := .Out, ttype := .Bulk, packet_size := 64 }

/-- Alternate 0 exposing the three test endpoints. -/
def alt0 : UsbAlternateInterface :=
  { alternate_setting := 0
    interface_class := 10
    interface_subclass := 0
    interface_protocol := 0
    interface_name := none
    endpoints := [epOut4, epIn5, epOut1] }

/-- Interface 2 (unclaimed) with alternate 0. -/
def itf2 : UsbInterface :=
  { interface_number := 2, alternate := alt0, alternates := [alt0],
    claimed := false }

/-- Interface 2, claimed. -/
def itf2claimed : UsbInterface := { itf2 with claimed := true }

/-- Configuration 1 holding interface 2. -/
def cfg1 : UsbConfiguration :=
  { configuration_name := none, configuration_value := 1,
    interfaces := [itf2] }

/-- Configuration 1 with interface 2 claimed. -/
def cfg1claimed : UsbConfiguration :=
  { cfg1 with interfaces := [itf2claimed] }

/-- A backend whose every call succeeds. -/
def okBackend : Backend :=
  { open_device := .ok ()
    config_descriptor := fun _ => .ok 0
    configuration_from := fun _ => .ok cfg1
    set_active_configuration := fun _ => .ok ()
    claim_interface := fun _ => .ok ()
    release_interface := fun _ => .ok ()
    set_alternate_setting := fun _ _ => .ok ()
    read_control := .ok 2
    write_control := .ok 0
    read_bulk := fun _ => .ok 2
    read_interrupt := fun _ => .ok 2
    write_bulk := fun _ => .ok 1
    write_interrupt := fun _ => .ok 1
    clear_halt := fun _ => .ok ()
    reset_device := .ok () }

/-- A freshly enumerated device: closed, no handle, configuration 1
active with interface 2 present and unclaimed. -/
def freshDevice : UsbDevice := mkDevice [cfg1] (some cfg1) false none

/-- The same device, opened (handle present). -/
def openedDevice : UsbDevice := mkDevice [cfg1] (some cfg1) true (some ())

/-- Opened device with interface 2 claimed. -/
def openedClaimedDevice : UsbDevice :=
  mkDevice [cfg1claimed] (some cfg1claimed) true (some ())

/-- The scheme prefix chosen by `bytes[2]` in `parse_webusb_url`. -/
def schemePrefixBytes : Nat → List Nat
  | 0 => asciiBytes "http://"
  | 1 => asciiBytes "https://"
  | _ => []

/-- A BOS input whose 16-bit little-endian `wTotalLength`
(`bytes[2] | bytes[3] << 8` = 1280) exceeds the input length (29), but
whose u8-wrapped total (`(0 + 5) % 256 = 5`) passes the header check: a
single well-formed WebUSB Platform Capability follows. -/
def c7Bytes : List Nat :=
  [0x05, 0x0F, 0x00, 0x05, 0x01,
   0x18, 0x10, 0x05, 0x00] ++ WEB_USB_CAPABILITY_UUID ++
  [0x00, 0x01, 0x42, 0x01]

/-- S1 with the WebUSB capability enlarged to 25 bytes (`capLen = 0x19`,
one trailing pad byte): every other field is untouched. -/
def s1Cap25Bytes : List Nat :=
  [0x05, 0x0F, 0x4C, 0x00, 0x03,
   0x14, 0x10, 0x04, 0x00, 0x2A, 0xF9, 0xF6, 0xC2, 0x98, 0x10, 0x2B, 0x49,
   0x8E, 0x64, 0xFF, 0x01, 0x0C, 0x7F, 0x94, 0xE1,
   0x19, 0x10, 0x05, 0x00, 0x38, 0xB6, 0x08, 0x34, 0xA9, 0x09, 0xA0, 0x47,
   0x8B, 0xFD, 0xA0, 0x76, 0x88, 0x15, 0xB6, 0x65, 0x00, 0x01, 0x42, 0x01,
   0x00,
   0x1C, 0x10, 0x05, 0x00, 0xDF, 0x60, 0xDD, 0xD8, 0x89, 0x45, 0xC7, 0x4C,
   0x9C, 0xD2, 0x65, 0x9D, 0x9E, 0x64, 0x8A, 0x9F, 0x00, 0x00, 0x03, 0x06,
   0x00, 0x00, 0x01, 0x00]

/-- Control setup addressing endpoint 1 OUT (`wIndex = 0x0001`). -/
def setupEndpoint1 : UsbControlTransferParameters :=
  { request_type := .Standard, recipient := .Endpoint, request := 0x01,
    value := 0, index := 1 }

/-- A raw enumerated device that is a hub (class 9). -/
def rawHub : RawDevice :=
  { device_descriptor := .ok { class_code := 9 },
    try_from := .ok freshDevice }

/-- A raw device whose record construction fails with `Usb(Access)`. -/
def rawAccess : RawDevice :=
  { device_descriptor := .ok { class_code := 0 },
    try_from := .error (.usb .access) }

/-- A raw device whose record construction fails with `Usb(Busy)`. -/
def rawBusy : RawDevice :=
  { device_descriptor := .ok { class_code := 0 },
    try_from := .error (.usb .busy) }

/-- A raw device whose record construction succeeds. -/
def rawGood : RawDevice :=
  { device_descriptor := .ok { class_code := 0 },
    try_from := .ok freshDevice }

/-- A backend whose every call fails with `Busy`. -/
def busyBackend : Backend :=
  { open_device := .error .busy
    config_descriptor := fun _ => .ok 0
    configuration_from := fun _ => .ok cfg1
    set_active_configuration := fun _ => .error .busy
    claim_interface := fun _ => .error .busy
    release_interface := fun _ => .error .busy
    set_alternate_setting := fun _ _ => .error .busy
    read_control := .error .busy
    write_control := .error .busy
    read_bulk := fun _ => .error .busy
    read_interrupt := fun _ => .error .busy
    write_bulk := fun _ => .error .busy
    write_interrupt := fun _ => .error .busy
    clear_halt := fun _ => .error .busy
    reset_device := .error .busy }

/-! Helper lemmas. -/

theorem PResult.ok_bind {α β : Type} (a : α) (f : α → PResult β) :
    PResult.ok a >>= f = f a := rfl

theorem PResult.crashed_bind {α β : Type} (f : α → PResult β) :
    (PResult.crashed : PResult α) >>= f = .crashed := rfl

theorem PResult.pure_eq_ok {α : Type} (a : α) :
    (pure a : PResult α) = .ok a := rfl

theorem idxP_lt {l : List Nat} {i : Nat} (h : i < l.length) :
    idxP l i = .ok (l.getD i 0) := by
  unfold idxP
  rcases hg : l.get? i with _ | v
  · rw [List.get?_eq_none] at hg
    omega
  · have : l.getD i 0 = v := by
      unfold List.getD
      rw [hg]
      rfl
    rw [this]

theorem sliceFromP_le {l : List Nat} {i : Nat} (h : i ≤ l.length) :
    sliceFromP l i = .ok (l.drop i) := by
  unfold sliceFromP
  rw [if_pos h]

/-! Claim theorems. -/

/-- C1 (code bug): `parse_bos` is not total.  On the well-formed-header
input `05 0F 05 00 01` (BOS header announcing one device capability, with
no capability bytes following) the loop indexes `bytes[0]` of an empty
slice and panics, instead of returning `None` for the malformed input. -/
theorem parse_bos_crashes_on_truncated_capability :
    parse_bos [0x05, 0x0F, 0x05, 0x00, 0x01] = .crashed := by decide

/-- C3 (code bug): `validate_control_setup` masks the endpoint number
with `(1 << 4) = 0x10`, not the low nibble `0x0F` required by the WebUSB
specification.  With endpoint 1 OUT exposed by the current configuration
and `setup.index = 1`, the source returns `NotFound` while the
specification's mask finds the endpoint and accepts. -/
theorem validate_control_setup_mask_is_bit4 :
    openedDevice.validate_control_setup setupEndpoint1 = .error .notFound ∧
    validate_control_setup_spec openedDevice setupEndpoint1 = .ok () := by
  decide

/-- C5 (code bug): `transfer_out` and `transfer_in` dispatch to the
backend even though the interface owning the endpoint is not claimed (the
source marks the claim check `FIXME`).  On an opened device whose only
interface is unclaimed, both calls succeed instead of failing. -/
theorem transfer_without_claim_dispatches :
    (cfg1.interfaces.map (fun i => i.claimed)) = [false] ∧
    openedDevice.transfer_out okBackend 4 (asciiBytes "H") =
      .ok (.ok 1, openedDevice) ∧
    openedDevice.transfer_in okBackend 5 64 =
      .ok (.ok [0, 0], openedDevice) := by
  decide

/-- C2 counterexample: on a freshly enumerated device,
`claim_interface(255)` (no such interface in the current configuration)
returns `NotFound`, not `InvalidState`: the blanket claim fails for calls
that reference absent entities. -/
theorem fresh_claim_interface_absent_notFound :
    freshDevice.claim_interface okBackend 255 =
      .ok (.error .notFound, freshDevice) ∧
    Error.notFound ≠ Error.invalidState := by
  decide

/-- C4 counterexample: `close()` on an opened device with a claimed
interface clears `opened` and the handle but leaves the interface's
`claimed` flag `true` — the model flags are not forced to false. -/
theorem close_leaves_claimed_flag_set :
    UsbDevice.close openedClaimedDevice =
      .ok (.ok (), mkDevice [cfg1claimed] (some cfg1claimed) false none) ∧
    ((mkDevice [cfg1claimed] (some cfg1claimed) false none).configuration.map
      (fun c => c.interfaces.map (fun i => i.claimed))) = some [true] := by
  decide

/-- C6 counterexample: when a (non-hub) device's record construction
fails with `Usb(Busy)`, `Context::devices` panics at the final `unwrap`
instead of returning the error to the caller. -/
theorem devices_crashes_on_busy_construction :
    Context.devices (.ok [rawBusy]) = .crashed := by decide

/-- C7 counterexample: `parse_bos` succeeds on an input whose 16-bit
little-endian `wTotalLength` (1280) exceeds the input length (29): the
source computes the total length in wrapping u8 arithmetic
(`(bytes[2] + bytes[3]) % 256 = 5`), so the claimed requirement
`5 ≤ (bytes[2] | bytes[3] << 8) ≤ len` is not what is enforced. -/
theorem parse_bos_total_length_not_16bit :
    parse_bos c7Bytes = .ok (some (0x42, 0x01)) ∧
    c7Bytes.getD 2 0 + c7Bytes.getD 3 0 * 256 > c7Bytes.length := by
  decide

/-- C4 (amended): on any device satisfying the handle invariant,
`close()` succeeds, clears `opened` and releases the handle; the
configuration tree — including every `Interface.claimed` flag — is left
unchanged (the source does not clear claim flags). -/
theorem close_resets_opened_and_handle (d : UsbDevice)
    (hinv : d.opened = true ↔ d.device_handle.isSome = true) :
    UsbDevice.close d =
      .ok (.ok (), { d with opened := false, device_handle := none }) := by
  unfold UsbDevice.close
  rcases hop : d.opened with _ | _
  · have hh : d.device_handle = none := by
      rcases hh : d.device_handle with _ | u
      · rfl
      · rw [hop, hh] at hinv
        simp at hinv
    rw [hh]
    simp only [Bool.not_false, if_pos]
    cases d
    simp_all
  · have hs : d.device_handle.isSome = true := hinv.mp hop
    rcases hh : d.device_handle with _ | u
    · rw [hh] at hs
      simp at hs
    · cases u
      simp [hh]

/-- C4 witness: the amended close behaviour at the concrete opened device
with a claimed interface. -/
theorem close_resets_opened_and_handle_witness :
    UsbDevice.close openedClaimedDevice =
      .ok (.ok (), { openedClaimedDevice with
        opened := false, device_handle := none }) :=
  close_resets_opened_and_handle openedClaimedDevice (by decide)

/-- C7 (amended): any successful `parse_bos` result implies
`5 ≤ (bytes[2] + bytes[3]) % 256 ≤ len(bytes)` — the u8-wrapping total
(`wrapping_shl(8)` on a u8 is the identity), not the 16-bit value;
a matching WebUSB capability is accepted only with `capLen` exactly 24
(the 25-byte variant of S1 yields `None`); on the literal S1 sequence
`parse_bos` returns `(0x42, 0x01)`. -/
theorem parse_bos_wrapped_total_and_caplen :
    (∀ (bytes : List Nat) (p : Nat × Nat), parse_bos bytes = .ok (some p) →
      5 ≤ (bytes.getD 2 0 + bytes.getD 3 0) % 256 ∧
      (bytes.getD 2 0 + bytes.getD 3 0) % 256 ≤ bytes.length) ∧
    parse_bos s1Cap25Bytes = .ok none ∧
    parse_bos s1Bytes = .ok (some (0x42, 0x01)) := by
  refine ⟨?_, by decide, by decide⟩
  intro bytes p h
  unfold parse_bos at h
  split at h
  · simp at h
  · rename_i hlen
    rw [idxP_lt (show 2 < bytes.length by omega),
      idxP_lt (show 3 < bytes.length by omega)] at h
    simp only [PResult.ok_bind] at h
    rw [idxP_lt (show 0 < bytes.length by omega)] at h
    simp only [PResult.ok_bind] at h
    split at h
    · simp [PResult.pure_eq_ok] at h
    · rw [idxP_lt (show 1 < bytes.length by omega)] at h
      simp only [PResult.ok_bind] at h
      split at h
      · simp [PResult.pure_eq_ok] at h
      · split at h
        · simp [PResult.pure_eq_ok] at h
        · rename_i hguard
          omega

/-- C7 witness: the wrapped-total bounds at the concrete S1 input. -/
theorem parse_bos_wrapped_total_and_caplen_witness :
    5 ≤ (s1Bytes.getD 2 0 + s1Bytes.getD 3 0) % 256 ∧
    (s1Bytes.getD 2 0 + s1Bytes.getD 3 0) % 256 ≤ s1Bytes.length :=
  parse_bos_wrapped_total_and_caplen.1 s1Bytes (0x42, 0x01) (by decide)

/-- C8: `parse_webusb_url` returns a URL exactly when `bytes[0] ≥ 3`,
`bytes[0] ≤ len`, `bytes[1] = 3` and the scheme byte `bytes[2]` is 0 or
1; the URL is the scheme prefix followed by the lossy UTF-8 decode of
`bytes[3..bytes[0]]`; on the S2 input it is
`https://example.com/index.html`. -/
theorem parse_webusb_url_spec :
    (∀ bytes : List Nat, (parse_webusb_url bytes).isSome = true ↔
      (3 ≤ bytes.getD 0 0 ∧ bytes.getD 0 0 ≤ bytes.length ∧
       bytes.getD 1 0 = 3 ∧ (bytes.getD 2 0 = 0 ∨ bytes.getD 2 0 = 1))) ∧
    (∀ bytes : List Nat, 3 ≤ bytes.getD 0 0 → bytes.getD 0 0 ≤ bytes.length →
      bytes.getD 1 0 = 3 → (bytes.getD 2 0 = 0 ∨ bytes.getD 2 0 = 1) →
      parse_webusb_url bytes = some (schemePrefixBytes (bytes.getD 2 0) ++
        from_utf8_lossy ((bytes.take (bytes.getD 0 0)).drop 3))) ∧
    parse_webusb_url s2Bytes =
      some (asciiBytes "https://example.com/index.html") := by
  refine ⟨?_, ?_, by decide⟩
  · intro bytes
    simp only [parse_webusb_url, DESCRIPTOR_MIN_LENGTH, DESCRIPTOR_TYPE]
    split_ifs with h1 h2 h3 h4 h5 h6 <;>
      simp only [Option.isSome_some, Option.isSome_none, eq_self_iff_true,
        true_iff, Bool.false_eq_true, false_iff] <;>
      omega
  · intro bytes hb0 hlen hb1 hb2
    simp only [parse_webusb_url, DESCRIPTOR_MIN_LENGTH, DESCRIPTOR_TYPE]
    rw [if_neg (by omega), if_neg (by omega), if_neg (by omega),
      if_neg (by omega)]
    rcases hb2 with h | h
    · rw [if_pos h, h]
      rfl
    · rw [if_neg (by omega), if_pos h, h]
      rfl

/-- C8 witness: the content equation at the concrete S2 input. -/
theorem parse_webusb_url_spec_witness :
    parse_webusb_url s2Bytes = some (schemePrefixBytes (s2Bytes.getD 2 0) ++
      from_utf8_lossy ((s2Bytes.take (s2Bytes.getD 0 0)).drop 3)) :=
  parse_webusb_url_spec.2.1 s2Bytes (by decide) (by decide) (by decide)
    (by decide)

/-- C6 (amended): `Context::devices` propagates a failure of the backend
device-list call; it skips devices whose descriptor read fails or whose
class is 9 (hub); it silently skips devices whose record construction
fails with `Usb(Access)`; any other construction failure makes the final
`unwrap` panic instead of producing an error return. -/
theorem devices_filter_and_unwrap :
    (∀ e : RusbError,
      Context.devices (.error e) = .ok (.error (.usb e))) ∧
    (∀ (ds : List RawDevice) (raw : RawDevice),
      (match raw.device_descriptor with
       | .ok dd => dd.class_code != 9
       | .error _ => false) = false →
      Context.devices (.ok (raw :: ds)) = Context.devices (.ok ds)) ∧
    (∀ (ds : List RawDevice) (raw : RawDevice) (dd : DeviceDescriptor),
      raw.device_descriptor = .ok dd → dd.class_code ≠ 9 →
      raw.try_from = .error (.usb .access) →
      Context.devices (.ok (raw :: ds)) = Context.devices (.ok ds)) ∧
    (∀ (ds : List RawDevice) (raw : RawDevice) (dd : DeviceDescriptor)
        (e : Error),
      raw.device_descriptor = .ok dd → dd.class_code ≠ 9 →
      raw.try_from = .error e → e ≠ .usb .access →
      Context.devices (.ok (raw :: ds)) = .crashed) := by
  refine ⟨fun e => rfl, ?_, ?_, ?_⟩
  · intro ds raw h
    simp [Context.devices, List.filter_cons, h]
  · intro ds raw dd h1 h2 h3
    simp [Context.devices, List.filter_cons, h1, h2, h3]
  · intro ds raw dd e h1 h2 h3 h4
    simp [Context.devices, List.filter_cons, h1, h2, h3, h4, unwrapAll,
      PResult.crashed_bind]

/-- C6 witness: a hub is excluded, an `Access` failure is skipped, and a
`Busy` failure makes the enumeration panic. -/
theorem devices_filter_and_unwrap_witness :
    Context.devices (.ok [rawBusy, rawGood]) = .crashed :=
  devices_filter_and_unwrap.2.2.2 [rawGood] rawBusy { class_code := 0 }
    (.usb .busy) rfl (by decide) rfl (by decide)

/-- C2 (amended): on a freshly enumerated device (closed, no handle),
every state-dependent operation returns `InvalidState` provided its
arguments refer to entities the device actually exposes (a configuration
with the requested value and a successful descriptor read, an interface
with the requested number in the current configuration, an endpoint with
the requested number/direction of Bulk or Interrupt type); the control
transfers and `reset` need no such proviso; `close()` succeeds.  Calls
naming absent entities return `NotFound` instead. -/
theorem fresh_device_ops_invalid_state
    (d : UsbDevice) (b : Backend) (cfg : UsbConfiguration)
    (hop : d.opened = false) (hh : d.device_handle = none)
    (hcfg : d.configuration = some cfg)
    (v n a epi epo len : Nat) (data : List Nat)
    (setup : UsbControlTransferParameters)
    (ci x : Nat)
    (hv : d.configurations.findIdx?
      (fun c => c.configuration_value == v) = some ci)
    (hcd : b.config_descriptor ci = .ok x)
    (itf : UsbInterface)
    (hn : cfg.interfaces.find? (fun i => i.interface_number == n) = some itf)
    (eIn : UsbEndpoint)
    (hin : cfg.findEndpoint epi Direction.In = some eIn)
    (hinT : eIn.ttype = .Bulk ∨ eIn.ttype = .Interrupt)
    (eOut : UsbEndpoint)
    (hout : cfg.findEndpoint epo Direction.Out = some eOut)
    (houtT : eOut.ttype = .Bulk ∨ eOut.ttype = .Interrupt)
    (dirH : Direction) (eph : Nat) (itfH : UsbInterface)
    (hch : cfg.interfaces.find? (fun itf =>
      itf.alternates.any (fun alt =>
        alt.endpoints.any (fun endpoint =>
          endpoint.endpoint_number == eph &&
            endpoint.direction == dirH))) = some itfH) :
    d.select_configuration b v = .ok (.error .invalidState, d) ∧
    d.claim_interface b n = .ok (.error .invalidState, d) ∧
    d.release_interface b n = .ok (.error .invalidState, d) ∧
    d.select_alternate_interface b n a = .ok (.error .invalidState, d) ∧
    d.transfer_in b epi len = .ok (.error .invalidState, d) ∧
    d.transfer_out b epo data = .ok (.error .invalidState, d) ∧
    d.clear_halt b dirH eph = .ok (.error .invalidState, d) ∧
    d.control_transfer_in b setup len = .ok (.error .invalidState, d) ∧
    d.control_transfer_out b setup data = .ok (.error .invalidState, d) ∧
    d.reset b = .ok (.error .invalidState, d) ∧
    d.close = .ok (.ok (), d) := by
  refine ⟨?_, ?_, ?_, ?_, ?_, ?_, ?_, ?_, ?_, ?_, ?_⟩
  · simp [UsbDevice.select_configuration, hv, hcd, hop]
  · simp [UsbDevice.claim_interface, hcfg, hn, hop]
  · simp [UsbDevice.release_interface, hcfg, hn, hop]
  · simp [UsbDevice.select_alternate_interface, hcfg, hn, hop]
  · rcases hinT with ht | ht <;>
      simp [UsbDevice.transfer_in, hcfg, hin, hop, ht]
  · rcases houtT with ht | ht <;>
      simp [UsbDevice.transfer_out, hcfg, hout, hop, ht]
  · simp [UsbDevice.clear_halt, hcfg, hch, hop]
  · simp [UsbDevice.control_transfer_in, hop]
  · simp [UsbDevice.control_transfer_out, hop]
  · simp [UsbDevice.reset, hop]
  · simp [UsbDevice.close, hop]

/-- C2 witness: the amended behaviour at the concrete fresh device
(configuration 1 selected, interface 2 present, endpoints 4 OUT and
5 IN exposed). -/
theorem fresh_device_ops_invalid_state_witness :
    freshDevice.select_configuration okBackend 1 =
      .ok (.error .invalidState, freshDevice) ∧
    freshDevice.claim_interface okBackend 2 =
      .ok (.error .invalidState, freshDevice) ∧
    freshDevice.release_interface okBackend 2 =
      .ok (.error .invalidState, freshDevice) ∧
    freshDevice.select_alternate_interface okBackend 2 0 =
      .ok (.error .invalidState, freshDevice) ∧
    freshDevice.transfer_in okBackend 5 64 =
      .ok (.error .invalidState, freshDevice) ∧
    freshDevice.transfer_out okBackend 4 (asciiBytes "H") =
      .ok (.error .invalidState, freshDevice) ∧
    freshDevice.clear_halt okBackend .Out 4 =
      .ok (.error .invalidState, freshDevice) ∧
    freshDevice.control_transfer_in okBackend setupEndpoint1 18 =
      .ok (.error .invalidState, freshDevice) ∧
    freshDevice.control_transfer_out okBackend setupEndpoint1
        (asciiBytes "H") = .ok (.error .invalidState, freshDevice) ∧
    freshDevice.reset okBackend = .ok (.error .invalidState, freshDevice) ∧
    freshDevice.close = .ok (.ok (), freshDevice) :=
  fresh_device_ops_invalid_state freshDevice okBackend cfg1 rfl rfl rfl
    1 2 0 5 4 18 (asciiBytes "H") setupEndpoint1 0 0 (by decide) (by decide)
    itf2 (by decide) epIn5 (by decide) (by decide) epOut4 (by decide)
    (by decide) .Out 4 itf2 (by decide)

/-! Per-operation state lemmas for the `opened ⇔ handle` invariant. -/

theorem bind_snd_ok {α : Type} {m : PResult (α × UsbDevice)}
    {d' : UsbDevice} (h : (do let r ← m; pure r.2) = .ok d') :
    ∃ r, m = .ok (r, d') := by
  rcases m with _ | ⟨r, s⟩
  · exact PResult.noConfusion h
  · have hs : s = d' := PResult.ok.inj h
    exact ⟨r, by rw [hs]⟩

theorem inv_openDevice (b : Backend) (d : UsbDevice) (hinv : devInv d) :
    ∀ r d', d.openDevice b = .ok (r, d') → devInv d' := by
  intro r d' h
  unfold UsbDevice.openDevice at h
  repeat' split at h
  all_goals try simp only [] at h
  all_goals repeat' split at h
  all_goals first
    | exact PResult.noConfusion h
    | (injection h with h2; injection h2 with hr hs; subst hs;
       simp_all [devInv, UsbDevice.withClaimed])

theorem inv_close (d : UsbDevice) (hinv : devInv d) :
    ∀ r d', d.close = .ok (r, d') → devInv d' := by
  intro r d' h
  unfold UsbDevice.close at h
  repeat' split at h
  all_goals try simp only [] at h
  all_goals repeat' split at h
  all_goals first
    | exact PResult.noConfusion h
    | (injection h with h2; injection h2 with hr hs; subst hs;
       simp_all [devInv, UsbDevice.withClaimed])

theorem inv_select_configuration (b : Backend) (v : Nat) (d : UsbDevice)
    (hinv : devInv d) :
    ∀ r d', d.select_configuration b v = .ok (r, d') → devInv d' := by
  intro r d' h
  unfold UsbDevice.select_configuration at h
  repeat' split at h
  all_goals try simp only [] at h
  all_goals repeat' split at h
  all_goals first
    | exact PResult.noConfusion h
    | (injection h with h2; injection h2 with hr hs; subst hs;
       simp_all [devInv, UsbDevice.withClaimed])

theorem inv_claim_interface (b : Backend) (n : Nat) (d : UsbDevice)
    (hinv : devInv d) :
    ∀ r d', d.claim_interface b n = .ok (r, d') → devInv d' := by
  intro r d' h
  unfold UsbDevice.claim_interface at h
  repeat' split at h
  all_goals try simp only [] at h
  all_goals repeat' split at h
  all_goals first
    | exact PResult.noConfusion h
    | (injection h with h2; injection h2 with hr hs; subst hs;
       simp_all [devInv, UsbDevice.withClaimed])

theorem inv_release_interface (b : Backend) (n : Nat) (d : UsbDevice)
    (hinv : devInv d) :
    ∀ r d', d.release_interface b n = .ok (r, d') → devInv d' := by
  intro r d' h
  unfold UsbDevice.release_interface at h
  repeat' split at h
  all_goals try simp only [] at h
  all_goals repeat' split at h
  all_goals first
    | exact PResult.noConfusion h
    | (injection h with h2; injection h2 with hr hs; subst hs;
       simp_all [devInv, UsbDevice.withClaimed])

theorem inv_select_alternate_interface (b : Backend) (n a : Nat)
    (d : UsbDevice) (hinv : devInv d) :
    ∀ r d', d.select_alternate_interface b n a = .ok (r, d') → devInv d' := by
  intro r d' h
  unfold UsbDevice.select_alternate_interface at h
  repeat' split at h
  all_goals try simp only [] at h
  all_goals repeat' split at h
  all_goals first
    | exact PResult.noConfusion h
    | (injection h with h2; injection h2 with hr hs; subst hs;
       simp_all [devInv, UsbDevice.withClaimed])

theorem inv_control_transfer_in (b : Backend)
    (setup : UsbControlTransferParameters) (len : Nat) (d : UsbDevice)
    (hinv : devInv d) :
    ∀ r d', d.control_transfer_in b setup len = .ok (r, d') → devInv d' := by
  intro r d' h
  unfold UsbDevice.control_transfer_in at h
  repeat' split at h
  all_goals try simp only [] at h
  all_goals repeat' split at h
  all_goals first
    | exact PResult.noConfusion h
    | (injection h with h2; injection h2 with hr hs; subst hs;
       simp_all [devInv, UsbDevice.withClaimed])

theorem inv_control_transfer_out (b : Backend)
    (setup : UsbControlTransferParameters) (data : List Nat) (d : UsbDevice)
    (hinv : devInv d) :
    ∀ r d', d.control_transfer_out b setup data = .ok (r, d') → devInv d' := by
  intro r d' h
  unfold UsbDevice.control_transfer_out at h
  repeat' split at h
  all_goals try simp only [] at h
  all_goals repeat' split at h
  all_goals first
    | exact PResult.noConfusion h
    | (injection h with h2; injection h2 with hr hs; subst hs;
       simp_all [devInv, UsbDevice.withClaimed])

theorem inv_transfer_in (b : Backend) (ep len : Nat) (d : UsbDevice)
    (hinv : devInv d) :
    ∀ r d', d.transfer_in b ep len = .ok (r, d') → devInv d' := by
  intro r d' h
  unfold UsbDevice.transfer_in at h
  repeat' split at h
  all_goals try simp only [] at h
  all_goals repeat' split at h
  all_goals first
    | exact PResult.noConfusion h
    | (injection h with h2; injection h2 with hr hs; subst hs;
       simp_all [devInv, UsbDevice.withClaimed])

theorem inv_transfer_out (b : Backend) (ep : Nat) (data : List Nat)
    (d : UsbDevice) (hinv : devInv d) :
    ∀ r d', d.transfer_out b ep data = .ok (r, d') → devInv d' := by
  intro r d' h
  unfold UsbDevice.transfer_out at h
  repeat' split at h
  all_goals try simp only [] at h
  all_goals repeat' split at h
  all_goals first
    | exact PResult.noConfusion h
    | (injection h with h2; injection h2 with hr hs; subst hs;
       simp_all [devInv, UsbDevice.withClaimed])

theorem inv_clear_halt (b : Backend) (dir : Direction) (ep : Nat)
    (d : UsbDevice) (hinv : devInv d) :
    ∀ r d', d.clear_halt b dir ep = .ok (r, d') → devInv d' := by
  intro r d' h
  unfold UsbDevice.clear_halt at h
  repeat' split at h
  all_goals try simp only [] at h
  all_goals repeat' split at h
  all_goals first
    | exact PResult.noConfusion h
    | (injection h with h2; injection h2 with hr hs; subst hs;
       simp_all [devInv, UsbDevice.withClaimed])

theorem inv_reset (b : Backend) (d : UsbDevice) (hinv : devInv d) :
    ∀ r d', d.reset b = .ok (r, d') → devInv d' := by
  intro r d' h
  unfold UsbDevice.reset at h
  repeat' split at h
  all_goals try simp only [] at h
  all_goals repeat' split at h
  all_goals first
    | exact PResult.noConfusion h
    | (injection h with h2; injection h2 with hr hs; subst hs;
       simp_all [devInv, UsbDevice.withClaimed])

theorem applyOp_inv (op : Op) (d : UsbDevice) (hinv : devInv d) :
    ∀ d', applyOp op d = .ok d' → devInv d' := by
  intro d' h
  cases op <;> simp only [applyOp] at h
  case openDevice b =>
    obtain ⟨r, hr⟩ := bind_snd_ok h
    exact inv_openDevice b d hinv r d' hr
  case close =>
    obtain ⟨r, hr⟩ := bind_snd_ok h
    exact inv_close d hinv r d' hr
  case select_configuration b v =>
    obtain ⟨r, hr⟩ := bind_snd_ok h
    exact inv_select_configuration b v d hinv r d' hr
  case claim_interface b n =>
    obtain ⟨r, hr⟩ := bind_snd_ok h
    exact inv_claim_interface b n d hinv r d' hr
  case release_interface b n =>
    obtain ⟨r, hr⟩ := bind_snd_ok h
    exact inv_release_interface b n d hinv r d' hr
  case select_alternate_interface b n a =>
    obtain ⟨r, hr⟩ := bind_snd_ok h
    exact inv_select_alternate_interface b n a d hinv r d' hr
  case control_transfer_in b setup len =>
    obtain ⟨r, hr⟩ := bind_snd_ok h
    exact inv_control_transfer_in b setup len d hinv r d' hr
  case control_transfer_out b setup data =>
    obtain ⟨r, hr⟩ := bind_snd_ok h
    exact inv_control_transfer_out b setup data d hinv r d' hr
  case transfer_in b ep len =>
    obtain ⟨r, hr⟩ := bind_snd_ok h
    exact inv_transfer_in b ep len d hinv r d' hr
  case transfer_out b ep data =>
    obtain ⟨r, hr⟩ := bind_snd_ok h
    exact inv_transfer_out b ep data d hinv r d' hr
  case clear_halt b dir ep =>
    obtain ⟨r, hr⟩ := bind_snd_ok h
    exact inv_clear_halt b dir ep d hinv r d' hr
  case reset b =>
    obtain ⟨r, hr⟩ := bind_snd_ok h
    exact inv_reset b d hinv r d' hr

theorem runOps_inv : ∀ (ops : List Op) (d : UsbDevice), devInv d →
    ∀ d', runOps ops d = .ok d' → devInv d' := by
  intro ops
  induction ops with
  | nil =>
    intro d hinv d' h
    have : d = d' := PResult.ok.inj h
    rw [← this]
    exact hinv
  | cons op ops ih =>
    intro d hinv d' h
    simp only [runOps] at h
    rcases hm : applyOp op d with _ | dm
    · rw [hm] at h
      exact PResult.noConfusion h
    · rw [hm] at h
      simp only [PResult.ok_bind] at h
      exact ih dm (applyOp_inv op d hinv dm hm) d' h

/-- C9: starting from a freshly enumerated device (closed, no handle),
after any sequence of operations that completes without panicking, the
device satisfies `opened = true ⇔ backend handle present` — each
operation preserves the invariant whether it succeeds or fails. -/
theorem opened_iff_handle_after_any_ops (ops : List Op) (d : UsbDevice)
    (hop : d.opened = false) (hh : d.device_handle = none) :
    ∀ d', runOps ops d = .ok d' →
      (d'.opened = true ↔ d'.device_handle.isSome = true) := by
  intro d' h
  have hinv : devInv d := by
    unfold devInv
    rw [hop, hh]
    simp
  exact runOps_inv ops d hinv d' h

/-- C9 witness: the invariant after a concrete open–close run on the
fresh test device. -/
theorem opened_iff_handle_after_any_ops_witness :
    freshDevice.opened = true ↔ freshDevice.device_handle.isSome = true :=
  opened_iff_handle_after_any_ops
    [Op.openDevice okBackend, Op.close]
    freshDevice rfl rfl freshDevice (by decide)

/-- C10: for `select_configuration`, `claim_interface`,
`release_interface`, `select_alternate_interface` and `reset`, whenever a
`Usb` (backend) error is returned the device state is exactly the state
before the call — `opened`, `configuration` and every claim flag
unchanged; and when the underlying backend call fails while all
preconditions hold, the operation returns exactly that backend error. -/
theorem backend_failure_is_atomic :
    (∀ (d : UsbDevice) (b : Backend) (v : Nat) (e : RusbError)
        (d₂ : UsbDevice),
      d.select_configuration b v = .ok (.error (.usb e), d₂) → d₂ = d) ∧
    (∀ (d : UsbDevice) (b : Backend) (n : Nat) (e : RusbError)
        (d₂ : UsbDevice),
      d.claim_interface b n = .ok (.error (.usb e), d₂) → d₂ = d) ∧
    (∀ (d : UsbDevice) (b : Backend) (n : Nat) (e : RusbError)
        (d₂ : UsbDevice),
      d.release_interface b n = .ok (.error (.usb e), d₂) → d₂ = d) ∧
    (∀ (d : UsbDevice) (b : Backend) (n a : Nat) (e : RusbError)
        (d₂ : UsbDevice),
      d.select_alternate_interface b n a = .ok (.error (.usb e), d₂) →
        d₂ = d) ∧
    (∀ (d : UsbDevice) (b : Backend) (e : RusbError) (d₂ : UsbDevice),
      d.reset b = .ok (.error (.usb e), d₂) → d₂ = d) ∧
    (∀ (d : UsbDevice) (b : Backend) (v ci x : Nat) (e : RusbError),
      d.configurations.findIdx?
        (fun c => c.configuration_value == v) = some ci →
      b.config_descriptor ci = .ok x →
      d.opened = true → d.device_handle = some () →
      b.set_active_configuration v = .error e →
      d.select_configuration b v = .ok (.error (.usb e), d)) ∧
    (∀ (d : UsbDevice) (b : Backend) (n : Nat) (cfg : UsbConfiguration)
        (itf : UsbInterface) (e : RusbError),
      d.configuration = some cfg →
      cfg.interfaces.find? (fun i => i.interface_number == n) = some itf →
      d.opened = true → itf.claimed = false → d.device_handle = some () →
      b.claim_interface itf.interface_number = .error e →
      d.claim_interface b n = .ok (.error (.usb e), d)) ∧
    (∀ (d : UsbDevice) (b : Backend) (n : Nat) (cfg : UsbConfiguration)
        (itf : UsbInterface) (e : RusbError),
      d.configuration = some cfg →
      cfg.interfaces.find? (fun i => i.interface_number == n) = some itf →
      d.opened = true → itf.claimed = true → d.device_handle = some () →
      b.release_interface itf.interface_number = .error e →
      d.release_interface b n = .ok (.error (.usb e), d)) ∧
    (∀ (d : UsbDevice) (b : Backend) (n a : Nat) (cfg : UsbConfiguration)
        (itf : UsbInterface) (e : RusbError),
      d.configuration = some cfg →
      cfg.interfaces.find? (fun i => i.interface_number == n) = some itf →
      d.opened = true → itf.claimed = true → d.device_handle = some () →
      b.set_alternate_setting itf.interface_number a = .error e →
      d.select_alternate_interface b n a = .ok (.error (.usb e), d)) ∧
    (∀ (d : UsbDevice) (b : Backend) (e : RusbError),
      d.opened = true → d.device_handle = some () →
      b.reset_device = .error e →
      d.reset b = .ok (.error (.usb e), d)) := by
  refine ⟨?_, ?_, ?_, ?_, ?_, ?_, ?_, ?_, ?_, ?_⟩
  · intro d b v e d₂ h
    unfold UsbDevice.select_configuration at h
    repeat' split at h
    all_goals first
      | exact PResult.noConfusion h
      | (injection h with h2; injection h2 with he hd;
         first
           | exact Except.noConfusion he
           | exact hd.symm)
  · intro d b n e d₂ h
    unfold UsbDevice.claim_interface at h
    repeat' split at h
    all_goals first
      | exact PResult.noConfusion h
      | (injection h with h2; injection h2 with he hd;
         first
           | exact Except.noConfusion he
           | exact hd.symm)
  · intro d b n e d₂ h
    unfold UsbDevice.release_interface at h
    repeat' split at h
    all_goals first
      | exact PResult.noConfusion h
      | (injection h with h2; injection h2 with he hd;
         first
           | exact Except.noConfusion he
           | exact hd.symm)
  · intro d b n a e d₂ h
    unfold UsbDevice.select_alternate_interface at h
    repeat' split at h
    all_goals first
      | exact PResult.noConfusion h
      | (injection h with h2; injection h2 with he hd;
         first
           | exact Except.noConfusion he
           | exact hd.symm)
  · intro d b e d₂ h
    unfold UsbDevice.reset at h
    repeat' split at h
    all_goals first
      | exact PResult.noConfusion h
      | (injection h with h2; injection h2 with he hd;
         first
           | exact Except.noConfusion he
           | exact hd.symm)
  · intro d b v ci x e hv hcd hopn hhd hsa
    simp [UsbDevice.select_configuration, hv, hcd, hopn, hhd, hsa]
  · intro d b n cfg itf e hcfg hn hopn hcl hhd hbe
    simp [UsbDevice.claim_interface, hcfg, hn, hopn, hcl, hhd, hbe]
  · intro d b n cfg itf e hcfg hn hopn hcl hhd hbe
    simp [UsbDevice.release_interface, hcfg, hn, hopn, hcl, hhd, hbe]
  · intro d b n a cfg itf e hcfg hn hopn hcl hhd hbe
    simp [UsbDevice.select_alternate_interface, hcfg, hn, hopn, hcl, hhd, hbe]
  · intro d b e hopn hhd hbe
    simp [UsbDevice.reset, hopn, hhd, hbe]

/-- C10 witness: a `Busy` backend failure of `claim_interface` on the
concrete opened device propagates verbatim and leaves the state intact. -/
theorem backend_failure_is_atomic_witness :
    openedDevice.claim_interface busyBackend 2 =
      .ok (.error (.usb .busy), openedDevice) ∧
    openedDevice = openedDevice :=
  ⟨backend_failure_is_atomic.2.2.2.2.2.2.1 openedDevice busyBackend 2 cfg1
      itf2 .busy rfl (by decide) rfl rfl rfl rfl,
    backend_failure_is_atomic.2.1 openedDevice busyBackend 2 .busy
      openedDevice (by decide)⟩
